import Mathlib

/-!
Shallow embedding of the Routecast route-weather pipeline from
backend/server.py: the geospatial utilities, the road-condition
classifier, the safety scorer, the hazard-alert generator, the trip
enrichment functions and the orchestrator's staged control flow,
together with theorems about them.

Conventions: Python ints are ℤ (wind speeds, being digit strings, are ℕ),
floats are ℚ where the code only does field arithmetic and ℝ where the
haversine trigonometry is involved, `Optional[T]` is `Option T`,
datetimes are minutes as ℤ.  Python truthiness (`x or default`) is made
explicit, since `0`, `""` and `None` are all falsy.
-/

namespace Routecast

/-- Python `x or default` for optional integers: `None` and `0` are falsy. -/
def pyOrZ (x : Option ℤ) (d : ℤ) : ℤ :=
  match x with
  | none => d
  | some v => if v = 0 then d else v

/-- Python `x or default` for optional strings: `None` and `""` are falsy. -/
def pyOrStr (x : Option String) (d : String) : String :=
  match x with
  | none => d
  | some v => if v = "" then d else v

/-- Char-list prefix test, auxiliary to the Python substring operator. -/
def charsStartWith : List Char → List Char → Bool
  | _, [] => true
  | [], _ :: _ => false
  | c :: cs, d :: ds => c == d && charsStartWith cs ds

/-- Substring test on char lists, auxiliary to the Python substring operator. -/
def charsContain : List Char → List Char → Bool
  | [], needle => needle.isEmpty
  | c :: cs, needle => charsStartWith (c :: cs) needle || charsContain cs needle

/-- Python `needle in hay` for strings. -/
def pyIn (needle hay : String) : Bool := charsContain hay.data needle.data

/-- Python `str.lower()` (character-wise case folding; the repository's
keyword tables are all ASCII). -/
def pyLower (s : String) : String := String.mk (s.data.map Char.toLower)

/-- Auxiliary for Python `str.split()`: accumulate the current token
(reversed) while scanning. -/
def splitWsAux : List Char → List Char → List (List Char)
  | [], acc => if acc.isEmpty then [] else [acc.reverse]
  | c :: cs, acc =>
    if c.isWhitespace then
      if acc.isEmpty then splitWsAux cs [] else acc.reverse :: splitWsAux cs []
    else splitWsAux cs (c :: acc)

/-- Python `str.split()` with no argument: tokens between whitespace runs,
no empty tokens. -/
def pySplitWs (s : String) : List (List Char) := splitWsAux s.data []

/-- Numeric value of a list of decimal digit characters (`int` applied to a
string of digits). -/
def digitsVal (ds : List Char) : ℕ := ds.foldl (fun n c => 10 * n + (c.toNat - 48)) 0

/-!
Wind-speed parsing.  The snippet

  wind_str = ... .wind_speed or "0 mph"
  try:
      wind_speed = int(''.join(filter(str.isdigit, wind_str.split()[0])))
  except:
      wind_speed = 0

is inlined at four places in server.py; each copy is embedded separately.
`split()[0]` on a whitespace-only string raises IndexError and `int("")`
raises ValueError, both caught by the bare `except`, giving 0.
-/

/-- Wind-speed parsing as inlined in calculate_safety_score
(server.py lines 699-703). -/
def safety_wind_speed (wind_speed : Option String) : ℕ :=
  let wind_str := pyOrStr wind_speed ("0 mph")
  match pySplitWs wind_str with
  | [] => 0
  | tok :: _ =>
    let ds := tok.filter Char.isDigit
    if ds.isEmpty then 0 else digitsVal ds

/-- Wind-speed parsing as inlined in generate_hazard_alerts
(server.py lines 784-788). -/
def hazard_wind_speed (wind_speed : Option String) : ℕ :=
  let wind_str := pyOrStr wind_speed ("0 mph")
  match pySplitWs wind_str with
  | [] => 0
  | tok :: _ =>
    let ds := tok.filter Char.isDigit
    if ds.isEmpty then 0 else digitsVal ds

/-- Wind-speed parsing as inlined in generate_trucker_warnings
(server.py lines 959-963). -/
def trucker_wind_speed (wind_speed : Option String) : ℕ :=
  let wind_str := pyOrStr wind_speed ("0 mph")
  match pySplitWs wind_str with
  | [] => 0
  | tok :: _ =>
    let ds := tok.filter Char.isDigit
    if ds.isEmpty then 0 else digitsVal ds

/-- Wind-speed parsing as inlined in derive_road_condition
(server.py lines 1055-1060). -/
def road_wind_speed (wind_speed : Option String) : ℕ :=
  let wind_str := pyOrStr wind_speed ("0 mph")
  match pySplitWs wind_str with
  | [] => 0
  | tok :: _ =>
    let ds := tok.filter Char.isDigit
    if ds.isEmpty then 0 else digitsVal ds

/-- Modelled from the spec: "extract the first run of digits in the
wind-speed text; non-numeric/missing -> 0".  This is the parsing rule the
spec claims for the wind-speed text, stated independently of the code. -/
def first_digit_run (s : String) : ℕ :=
  let run := (s.data.dropWhile (fun c => !c.isDigit)).takeWhile Char.isDigit
  if run.isEmpty then 0 else digitsVal run

/-- Python `s[:n]` string slicing (as in `alert.headline[:60]`). -/
def pySlice (s : String) (n : ℕ) : String := String.mk (s.data.take n)

/-- Hourly forecast entry (server.py class HourlyForecast). -/
structure HourlyForecast where
  time : String
  temperature : ℤ
  conditions : String
  wind_speed : String
  precipitation_chance : Option ℤ := none

/-- Weather snapshot at a waypoint (server.py class WeatherData). -/
structure WeatherData where
  temperature : Option ℤ := none
  temperature_unit : Option String := some ("F")
  wind_speed : Option String := none
  wind_direction : Option String := none
  conditions : Option String := none
  icon : Option String := none
  humidity : Option ℤ := none
  is_daytime : Option Bool := some true
  sunrise : Option String := none
  sunset : Option String := none
  hourly_forecast : List HourlyForecast := []

/-- Upstream weather alert (server.py class WeatherAlert). -/
structure WeatherAlert where
  id : String
  headline : String
  severity : String
  event : String
  description : String
  areas : Option String := none

/-- Sampled route waypoint (server.py class Waypoint); arrival times are
minutes as integers. -/
structure Waypoint where
  lat : ℝ
  lon : ℝ
  name : Option String := none
  distance_from_start : Option ℝ := none
  eta_minutes : Option ℤ := none
  arrival_time : Option ℤ := none

/-- A waypoint together with its fetched weather and alerts
(server.py class WaypointWeather). -/
structure WaypointWeather where
  waypoint : Waypoint
  weather : Option WeatherData := none
  alerts : List WeatherAlert := []
  error : Option String := none

/-- Derived road-surface classification (server.py class RoadCondition). -/
structure RoadCondition where
  condition : String
  severity : ℤ
  label : String
  icon : String
  color : String
  description : String
  recommendation : String

/-- First Extreme/Severe alert matching flood or ice/freezing, as scanned in
list order by the loop in derive_road_condition (server.py lines 1063-1086);
within one alert the flood check comes before the ice check. -/
def severe_alert_road_condition : List WeatherAlert → Option RoadCondition
  | [] => none
  | a :: rest =>
    let event := pyLower a.event
    if pyIn ("flood") event || pyIn ("flash flood") event then
      some ⟨"flooded", 4, "FLOODING", "🌊", "#dc2626",
        "Flash flood warning - " ++ pySlice a.headline 60,
        "🚫 DO NOT DRIVE - Find alternate route immediately"⟩
    else if pyIn ("ice") event || pyIn ("freezing") event then
      some ⟨"icy", 3, "ICY", "🧊", "#ef4444",
        "Ice storm - " ++ pySlice a.headline 60,
        "⚠️ DANGEROUS - Avoid travel if possible"⟩
    else severe_alert_road_condition rest

/-- Road-surface condition classifier derive_road_condition
(server.py lines 1040-1171). -/
def derive_road_condition (weather : Option WeatherData) (alerts : List WeatherAlert) :
    RoadCondition :=
  match weather with
  | none =>
    ⟨"unknown", 0, "UNKNOWN", "❓", "#6b7280", "Weather data unavailable",
      "Drive with normal caution"⟩
  | some w =>
    let temp := pyOrZ w.temperature 50
    let conditions := pyLower (pyOrStr w.conditions (""))
    let wind_speed := road_wind_speed w.wind_speed
    let severe_alerts := alerts.filter
      (fun a => a.severity == "Extreme" || a.severity == "Severe")
    match severe_alert_road_condition severe_alerts with
    | some rc => rc
    | none =>
      if temp ≤ 32 ∧
          [("rain"), ("drizzle"), ("freezing"), ("sleet"), ("ice")].any
            (fun wd => pyIn wd conditions) then
        ⟨"icy", 3, "ICY ROADS", "🧊", "#ef4444",
          "Freezing precipitation at " ++ toString temp ++ "°F",
          "⚠️ Black ice likely - Reduce speed to 25 mph on bridges"⟩
      else if pyIn ("snow") conditions || pyIn ("blizzard") conditions then
        ⟨"snow_covered",
          (if pyIn ("heavy") conditions || pyIn ("blizzard") conditions then 3 else 2),
          "SNOW", "❄️", "#93c5fd",
          "Snow conditions at " ++ toString temp ++ "°F",
          "🚗 Reduce speed 50%, increase following distance to 8 seconds"⟩
      else if temp ≤ 36 ∧ temp > 32 then
        ⟨"slippery", 2, "SLIPPERY", "⚠️", "#f59e0b",
          "Near-freezing " ++ toString temp ++ "°F - bridges/overpasses may be icy",
          "⚡ Watch for black ice on elevated surfaces"⟩
      else if pyIn ("fog") conditions || pyIn ("mist") conditions ||
          pyIn ("smoke") conditions then
        ⟨"low_visibility", 2, "LOW VIS", "🌫️", "#9ca3af",
          "Fog/reduced visibility",
          "💡 Low beams only, reduce speed to match visibility"⟩
      else if wind_speed > 35 then
        ⟨"dangerous_wind", 3, "HIGH WIND", "💨", "#8b5cf6",
          "Dangerous crosswinds at " ++ toString wind_speed ++ " mph",
          "🚛 HIGH-PROFILE VEHICLES: Consider stopping until winds subside"⟩
      else if [("rain"), ("shower"), ("drizzle"), ("storm"), ("thunder")].any
          (fun wd => pyIn wd conditions) then
        ⟨"wet",
          (if pyIn ("heavy") conditions || pyIn ("thunder") conditions then 2 else 1),
          "WET", "💧", "#3b82f6",
          "Wet roads - " ++ conditions,
          "🌧️ Headlights on, increase following distance to 4 seconds"⟩
      else
        ⟨"dry", 0, "DRY", "✓", "#22c55e",
          "Good conditions - " ++ toString temp ++ "°F, " ++
            (if conditions = "" then ("Clear") else conditions),
          "✅ Normal driving conditions"⟩

/-- Steps 4-10 of the documented decision order of the road-condition
classifier (the non-alert steps), reduced to (condition tag, severity)
pairs; shared by the as-stated and the amended reading of the order. -/
def classify_tail (w : WeatherData) : String × ℤ :=
  let temp := pyOrZ w.temperature 50
  let conditions := pyLower (pyOrStr w.conditions (""))
  let wind_speed := road_wind_speed w.wind_speed
  if temp ≤ 32 ∧
      [("rain"), ("drizzle"), ("freezing"), ("sleet"), ("ice")].any
        (fun wd => pyIn wd conditions) then
    (("icy"), 3)
  else if pyIn ("snow") conditions || pyIn ("blizzard") conditions then
    (("snow_covered"),
      if pyIn ("heavy") conditions || pyIn ("blizzard") conditions then 3 else 2)
  else if 32 < temp ∧ temp ≤ 36 then
    (("slippery"), 2)
  else if pyIn ("fog") conditions || pyIn ("mist") conditions ||
      pyIn ("smoke") conditions then
    (("low_visibility"), 2)
  else if wind_speed > 35 then
    (("dangerous_wind"), 3)
  else if [("rain"), ("shower"), ("drizzle"), ("storm"), ("thunder")].any
      (fun wd => pyIn wd conditions) then
    (("wet"),
      if pyIn ("heavy") conditions || pyIn ("thunder") conditions then 2 else 1)
  else
    (("dry"), 0)

/-- Modelled from the spec (C1 as stated): the documented 10-step decision
order with first-match-wins ACROSS steps, so the flood check ranges over all
Extreme/Severe alerts before the ice/freezing check ranges over any of
them. -/
def classify_order_claim (weather : Option WeatherData) (alerts : List WeatherAlert) :
    String × ℤ :=
  match weather with
  | none => (("unknown"), 0)
  | some w =>
    let severe := alerts.filter
      (fun a => a.severity == "Extreme" || a.severity == "Severe")
    if severe.any (fun a => pyIn ("flood") (pyLower a.event)) then
      (("flooded"), 4)
    else if severe.any (fun a =>
        pyIn ("ice") (pyLower a.event) || pyIn ("freezing") (pyLower a.event)) then
      (("icy"), 3)
    else classify_tail w

/-- The amended decision order for C1: identical to the documented order
except that the severe-alert stage scans the Extreme/Severe alerts in list
order, applying the flood check before the ice/freezing check within each
single alert (so an earlier severe ice alert wins over a later severe flood
alert). -/
def classify_order_amended (weather : Option WeatherData) (alerts : List WeatherAlert) :
    String × ℤ :=
  match weather with
  | none => (("unknown"), 0)
  | some w =>
    let severe := alerts.filter
      (fun a => a.severity == "Extreme" || a.severity == "Severe")
    match severe.findSome? (fun a =>
        if pyIn ("flood") (pyLower a.event) then some (("flooded"), (4 : ℤ))
        else if pyIn ("ice") (pyLower a.event) || pyIn ("freezing") (pyLower a.event) then
          some (("icy"), (3 : ℤ))
        else none) with
    | some p => p
    | none => classify_tail w

/-- Vehicle sensitivity profile (server.py VEHICLE_TYPES entries). -/
structure VehicleProfile where
  wind_sensitivity : ℚ
  ice_sensitivity : ℚ
  visibility_sensitivity : ℚ
  name : String

/-- The VEHICLE_TYPES dict lookup with car as fallback
(`VEHICLE_TYPES.get(vehicle_type, VEHICLE_TYPES["car"])`). -/
def vehicle_types_get (vehicle_type : String) : VehicleProfile :=
  if vehicle_type == "car" then ⟨1.0, 1.0, 1.0, "Car/Sedan"⟩
  else if vehicle_type == "suv" then ⟨1.1, 0.9, 1.0, "SUV"⟩
  else if vehicle_type == "truck" then ⟨1.3, 0.85, 1.0, "Pickup Truck"⟩
  else if vehicle_type == "semi" then ⟨1.8, 1.2, 1.3, "Semi Truck"⟩
  else if vehicle_type == "rv" then ⟨1.7, 1.1, 1.2, "RV/Motorhome"⟩
  else if vehicle_type == "motorcycle" then ⟨2.0, 2.5, 1.5, "Motorcycle"⟩
  else if vehicle_type == "trailer" then ⟨1.6, 1.3, 1.1, "Vehicle + Trailer"⟩
  else ⟨1.0, 1.0, 1.0, "Car/Sedan"⟩

/-- Safety score result (server.py class SafetyScore). -/
structure SafetyScore where
  overall_score : ℤ
  risk_level : String
  vehicle_type : String
  factors : List String
  recommendations : List String

/-- Python `int()` truncation toward zero on rationals. -/
def pytruncQ (q : ℚ) : ℤ := if 0 ≤ q then ⌊q⌋ else -⌊-q⌋

/-- Mutable state of the waypoint loop in calculate_safety_score:
running score and the accumulated factor/recommendation lists. -/
structure ScoreState where
  base_score : ℚ
  factors : List String
  recommendations : List String

/-- Inner alert loop body of calculate_safety_score (server.py lines
739-743): every Extreme/Severe alert subtracts a flat 20; the dedup guard
tests `alert.event not in factors` although the string appended is
`"Weather alert: " + alert.event`. -/
def safety_alert_step (st : ScoreState) (a : WeatherAlert) : ScoreState :=
  if a.severity == "Extreme" || a.severity == "Severe" then
    { st with
      base_score := st.base_score - 20,
      factors :=
        if st.factors.contains a.event then st.factors
        else st.factors ++ [("Weather alert: ") ++ a.event] }
  else st

/-- Per-waypoint body of calculate_safety_score (server.py lines 683-743):
temperature, wind, condition-keyword and alert penalties in that order. -/
def safety_waypoint_step (vehicle : VehicleProfile) (vehicle_type : String)
    (st : ScoreState) (wp : WaypointWeather) : ScoreState :=
  match wp.weather with
  | none => st
  | some w =>
    let temp := pyOrZ w.temperature 70
    let st1 :=
      if temp < 32 then
        { base_score := st.base_score - 15 * vehicle.ice_sensitivity,
          factors :=
            if st.factors.contains ("Freezing temperatures - ice risk") then st.factors
            else st.factors ++ [("Freezing temperatures - ice risk")],
          recommendations :=
            if st.factors.contains ("Freezing temperatures - ice risk") then
              st.recommendations
            else st.recommendations ++ [("Reduce speed on bridges and overpasses")] }
      else if temp < 40 then
        { st with base_score := st.base_score - 5 * vehicle.ice_sensitivity }
      else st
    let wind_speed := safety_wind_speed w.wind_speed
    let st2 :=
      if wind_speed > 30 then
        { base_score := st1.base_score - 20 * vehicle.wind_sensitivity,
          factors :=
            if st1.factors.contains ("High winds") then st1.factors
            else st1.factors ++ [("High winds")],
          recommendations :=
            if st1.factors.contains ("High winds") then st1.recommendations
            else st1.recommendations ++
              [if vehicle_type == "semi" || vehicle_type == "rv" ||
                  vehicle_type == "trailer" || vehicle_type == "motorcycle" then
                ("Consider delaying trip - dangerous wind conditions for your vehicle")
              else ("Maintain firm grip on steering wheel")] }
      else if wind_speed > 20 then
        { st1 with base_score := st1.base_score - 8 * vehicle.wind_sensitivity }
      else st1
    let conditions := pyLower (pyOrStr w.conditions (""))
    let st3 :=
      if pyIn ("snow") conditions || pyIn ("blizzard") conditions then
        { base_score := st2.base_score - 25 * vehicle.visibility_sensitivity,
          factors :=
            if st2.factors.contains ("Snow/winter conditions") then st2.factors
            else st2.factors ++ [("Snow/winter conditions")],
          recommendations :=
            if st2.factors.contains ("Snow/winter conditions") then st2.recommendations
            else st2.recommendations ++
              [("Use winter driving mode, increase following distance")] }
      else if pyIn ("rain") conditions || pyIn ("storm") conditions then
        { base_score := st2.base_score - 15 * vehicle.visibility_sensitivity,
          factors :=
            if st2.factors.contains ("Rain/storm conditions") then st2.factors
            else st2.factors ++ [("Rain/storm conditions")],
          recommendations :=
            if st2.factors.contains ("Rain/storm conditions") then st2.recommendations
            else st2.recommendations ++ [("Turn on headlights, reduce speed")] }
      else if pyIn ("fog") conditions then
        { base_score := st2.base_score - 20 * vehicle.visibility_sensitivity,
          factors :=
            if st2.factors.contains ("Low visibility - fog") then st2.factors
            else st2.factors ++ [("Low visibility - fog")],
          recommendations :=
            if st2.factors.contains ("Low visibility - fog") then st2.recommendations
            else st2.recommendations ++ [("Use low beam headlights, avoid sudden stops")] }
      else st2
    wp.alerts.foldl safety_alert_step st3

/-- The state after the whole waypoint loop of calculate_safety_score,
starting from score 100 with empty factor/recommendation lists. -/
def safety_state (waypoints_weather : List WaypointWeather) (vehicle_type : String) :
    ScoreState :=
  waypoints_weather.foldl
    (safety_waypoint_step (vehicle_types_get vehicle_type) vehicle_type) ⟨100, [], []⟩

/-- Safety scorer calculate_safety_score (server.py lines 675-770). -/
def calculate_safety_score (waypoints_weather : List WaypointWeather)
    (vehicle_type : String) : SafetyScore :=
  let vehicle := vehicle_types_get vehicle_type
  let st := safety_state waypoints_weather vehicle_type
  let final_score := max 0 (min 100 (pytruncQ st.base_score))
  let risk_level :=
    if final_score ≥ 80 then ("low")
    else if final_score ≥ 60 then ("moderate")
    else if final_score ≥ 40 then ("high")
    else ("extreme")
  let recommendations1 :=
    if final_score ≥ 80 ∨ final_score ≥ 60 ∨ final_score ≥ 40 then st.recommendations
    else ("⚠️ Consider postponing trip if possible") :: st.recommendations
  let factors2 :=
    if st.factors.isEmpty then [("Good driving conditions")] else st.factors
  let recommendations2 :=
    if recommendations1.isEmpty then
      [("Safe travels! Normal driving conditions expected")]
    else recommendations1
  ⟨final_score, risk_level, vehicle.name, factors2.take 5, recommendations2.take 4⟩

/-- Proactive hazard alert (server.py class HazardAlert). -/
structure HazardAlert where
  type : String
  severity : String
  distance_miles : ℝ
  eta_minutes : ℤ
  message : String
  recommendation : String
  countdown_text : String

/-- Python `x or default` for optional floats: `None` and `0.0` are falsy. -/
noncomputable def pyOrR (x : Option ℝ) (d : ℝ) : ℝ :=
  match x with
  | none => d
  | some v => if v = 0 then d else v

/-- Python `int()` truncation toward zero on reals. -/
noncomputable def pytruncR (x : ℝ) : ℤ := if 0 ≤ x then ⌊x⌋ else -⌊-x⌋

/-- Alerts contributed by a single waypoint in generate_hazard_alerts
(server.py lines 776-873): wind, rain, snow, ice, fog rules plus one alert
per upstream weather alert, none mutually exclusive except the rain tiers. -/
noncomputable def hazard_waypoint_alerts (wp : WaypointWeather) : List HazardAlert :=
  match wp.weather with
  | none => []
  | some w =>
    let distance := pyOrR wp.waypoint.distance_from_start 0
    let eta_mins := pyOrZ wp.waypoint.eta_minutes (pytruncR (distance / 55 * 60))
    let wind_speed := hazard_wind_speed w.wind_speed
    let windAlerts :=
      if wind_speed > 25 then
        [⟨("wind"),
          (if wind_speed > 40 then ("extreme")
           else if wind_speed > 30 then ("high") else ("medium")),
          distance, eta_mins,
          ("Strong winds of ") ++ toString wind_speed ++ (" mph"),
          ("Reduce speed to ") ++ toString (max 35 (65 - (wind_speed : ℤ) + 25)) ++ (" mph"),
          (if eta_mins > 0 then ("High winds in ") ++ toString eta_mins ++ (" minutes")
           else ("High winds at start"))⟩]
      else []
    let conditions := pyLower (pyOrStr w.conditions (""))
    let rainAlerts :=
      if pyIn ("heavy rain") conditions || pyIn ("storm") conditions then
        [⟨("rain"), ("high"), distance, eta_mins, ("Heavy rain expected"),
          ("Reduce speed, increase following distance to 4 seconds"),
          ("Heavy rain in ") ++ toString eta_mins ++ (" minutes at mile ") ++
            toString (pytruncR distance)⟩]
      else if pyIn ("rain") conditions || pyIn ("shower") conditions then
        [⟨("rain"), ("medium"), distance, eta_mins, ("Rain expected"),
          ("Turn on headlights and wipers"),
          ("Rain in ") ++ toString eta_mins ++ (" minutes")⟩]
      else []
    let snowAlerts :=
      if pyIn ("snow") conditions then
        [⟨("snow"), ("high"), distance, eta_mins, ("Snow conditions expected"),
          ("Reduce speed by 50%, use winter tires if available"),
          ("Snow conditions in ") ++ toString eta_mins ++ (" minutes")⟩]
      else []
    let temp := pyOrZ w.temperature 70
    let iceAlerts :=
      if temp ≤ 32 then
        [⟨("ice"), ("high"), distance, eta_mins,
          ("Freezing temperature (") ++ toString temp ++ ("°F) - ice risk"),
          ("Watch for black ice on bridges and overpasses"),
          ("Ice risk zone in ") ++ toString eta_mins ++ (" minutes")⟩]
      else []
    let fogAlerts :=
      if pyIn ("fog") conditions then
        [⟨("visibility"), ("high"), distance, eta_mins, ("Fog reducing visibility"),
          ("Use low beams, reduce speed to match visibility"),
          ("Fog in ") ++ toString eta_mins ++ (" minutes")⟩]
      else []
    let noaaAlerts := wp.alerts.map (fun a =>
      (⟨("alert"),
        (if a.severity == "Extreme" then ("extreme")
         else if a.severity == "Severe" then ("high")
         else if a.severity == "Moderate" then ("medium") else ("medium")),
        distance, eta_mins, a.event, pySlice a.headline 100,
        a.event ++ (" in ") ++ toString eta_mins ++ (" minutes")⟩ : HazardAlert))
    windAlerts ++ rainAlerts ++ snowAlerts ++ iceAlerts ++ fogAlerts ++ noaaAlerts

/-- Hazard alert generator generate_hazard_alerts (server.py lines
772-877): per-waypoint alerts, sorted ascending by distance and truncated
to the 10 nearest; the departure_time argument is unused by the source. -/
noncomputable def generate_hazard_alerts (waypoints_weather : List WaypointWeather)
    (departure_time : ℤ) : List HazardAlert :=
  ((waypoints_weather.foldl (fun acc wp => acc ++ hazard_waypoint_alerts wp) []).mergeSort
      (fun a b => a.distance_miles ≤ b.distance_miles)).take 10

/-- A waypoint of the C2 scenario as amended: weather present with
temperature 70, wind parsing to 0, no alerts, and a conditions text free of
every hazard keyword that the scorer or the hazard generator tests. -/
def BenignWaypoint (wp : WaypointWeather) : Prop :=
  ∃ w, wp.weather = some w ∧ w.temperature = some 70 ∧
    safety_wind_speed w.wind_speed = 0 ∧ wp.alerts = [] ∧
    pyIn ("snow") (pyLower (pyOrStr w.conditions (""))) = false ∧
    pyIn ("blizzard") (pyLower (pyOrStr w.conditions (""))) = false ∧
    pyIn ("rain") (pyLower (pyOrStr w.conditions (""))) = false ∧
    pyIn ("storm") (pyLower (pyOrStr w.conditions (""))) = false ∧
    pyIn ("fog") (pyLower (pyOrStr w.conditions (""))) = false ∧
    pyIn ("shower") (pyLower (pyOrStr w.conditions (""))) = false

/-- An Extreme tornado alert used in concrete evaluations. -/
def tornado_alert : WeatherAlert :=
  ⟨"a3", "Tornado Warning issued for the county until 5 PM", "Extreme",
    "Tornado Warning", "", none⟩

/-- Calm 70°F weather used in concrete evaluations. -/
def calm_weather70 : WeatherData :=
  { temperature := some 70, wind_speed := some ("0 mph"), conditions := none }

/-- A waypoint with calm weather but one Extreme tornado alert. -/
def wp_tornado : WaypointWeather :=
  ⟨⟨0, 0, none, none, none, none⟩, some calm_weather70, [tornado_alert], none⟩

/-- A waypoint with temperature 70, wind parsed 0, no alerts, but snowy
conditions. -/
def wp_snow : WaypointWeather :=
  ⟨⟨0, 0, none, none, none, none⟩,
    some { temperature := some 70, wind_speed := some ("0 mph"),
           conditions := some ("snow") },
    [], none⟩

/-- Packing suggestion (server.py class PackingSuggestion). -/
structure PackingSuggestion where
  item : String
  reason : String
  priority : String
  deriving DecidableEq

/-- Python `min(list)` on a nonempty integer list. -/
def pyMinZ (t : ℤ) (ts : List ℤ) : ℤ := ts.foldl min t

/-- Python `max(list)` on a nonempty integer list. -/
def pyMaxZ (t : ℤ) (ts : List ℤ) : ℤ := ts.foldl max t

/-- Scan state of generate_packing_suggestions (server.py lines 556-562):
collected truthy temperatures and the four condition flags. -/
structure PackScan where
  temps : List ℤ
  has_rain : Bool
  has_snow : Bool
  has_wind : Bool
  has_sun : Bool

/-- Per-waypoint scan body of generate_packing_suggestions (server.py
lines 564-582): temperatures are collected only when truthy (a reported 0
is skipped); the wind flag is also set when any of the numerals 15..49
occurs in the wind-speed text. -/
def pack_scan_step (s : PackScan) (wp : WaypointWeather) : PackScan :=
  match wp.weather with
  | none => s
  | some w =>
    let s0 :=
      match w.temperature with
      | none => s
      | some t => if t = 0 then s else { s with temps := s.temps ++ [t] }
    let conditions := pyLower (pyOrStr w.conditions (""))
    let s1 :=
      if pyIn ("rain") conditions || pyIn ("shower") conditions then
        { s0 with has_rain := true }
      else s0
    let s2 :=
      if pyIn ("snow") conditions || pyIn ("flurr") conditions then
        { s1 with has_snow := true }
      else s1
    let s3 := if pyIn ("wind") conditions then { s2 with has_wind := true } else s2
    let s4 :=
      if pyIn ("sun") conditions || pyIn ("clear") conditions then
        { s3 with has_sun := true }
      else s3
    let wind := pyOrStr w.wind_speed ("")
    if (List.range 35).any (fun i => pyIn (toString (i + 15)) wind) then
      { s4 with has_wind := true }
    else s4

/-- The suggestion list of generate_packing_suggestions before the final
cap (server.py lines 584-655): temperature-based, then condition-based,
then the always-appended phone charger and snacks. -/
def packing_suggestions_uncapped (waypoints_weather : List WaypointWeather) :
    List PackingSuggestion :=
  let s := waypoints_weather.foldl pack_scan_step ⟨[], false, false, false, false⟩
  let tempSugs :=
    match s.temps with
    | [] => []
    | t :: ts =>
      let min_temp := pyMinZ t ts
      let max_temp := pyMaxZ t ts
      (if min_temp < 40 then
        [⟨("Warm jacket"),
          ("Temperatures as low as ") ++ toString min_temp ++ ("°F expected"),
          ("essential")⟩]
      else []) ++
      (if min_temp < 32 then
        [⟨("Gloves & hat"), ("Freezing temperatures along route"), ("essential")⟩]
      else []) ++
      (if max_temp > 85 then
        [⟨("Extra water"), ("High temperatures up to ") ++ toString max_temp ++ ("°F"),
          ("essential")⟩]
      else []) ++
      (if max_temp - min_temp > 20 then
        [⟨("Layers"),
          ("Temperature range of ") ++ toString (max_temp - min_temp) ++ ("°F"),
          ("recommended")⟩]
      else [])
  tempSugs ++
  (if s.has_rain then
    [⟨("Umbrella/rain jacket"), ("Rain expected along route"), ("essential")⟩]
  else []) ++
  (if s.has_snow then
    [⟨("Snow gear & emergency kit"), ("Snow conditions expected"), ("essential")⟩]
  else []) ++
  (if s.has_wind then
    [⟨("Windbreaker"), ("Windy conditions expected"), ("recommended")⟩]
  else []) ++
  (if s.has_sun then
    [⟨("Sunglasses"), ("Sunny conditions expected"), ("recommended")⟩,
     ⟨("Sunscreen"), ("Sun exposure during drive"), ("optional")⟩]
  else []) ++
  [⟨("Phone charger"), ("Keep devices charged for navigation"), ("essential")⟩,
   ⟨("Snacks & water"), ("Stay hydrated and energized"), ("recommended")⟩]

/-- generate_packing_suggestions (server.py lines 554-657): the assembled
list capped at 8 entries. -/
def generate_packing_suggestions (waypoints_weather : List WaypointWeather) :
    List PackingSuggestion :=
  (packing_suggestions_uncapped waypoints_weather).take 8

/-- A cold waypoint whose conditions text triggers every condition flag. -/
def wp_cold_mix : WaypointWeather :=
  ⟨⟨0, 0, none, none, none, none⟩,
    some { temperature := some 30, conditions := some ("rain snow wind sun") },
    [], none⟩

/-- A hot waypoint (90°F). -/
def wp_hot : WaypointWeather :=
  ⟨⟨0, 0, none, none, none, none⟩, some { temperature := some 90 }, [], none⟩

/-- The reroute reason string built at a waypoint by
analyze_route_conditions (server.py lines 1271-1272). -/
noncomputable def reroute_reason_text (wp : WaypointWeather) : String :=
  let road_cond := derive_road_condition wp.weather wp.alerts
  let location := pyOrStr wp.waypoint.name
    (("Mile ") ++ toString (pytruncR (pyOrR wp.waypoint.distance_from_start 0)))
  road_cond.label ++ (" conditions at ") ++ location ++ (" - ") ++ road_cond.description

/-- Python truthiness of an optional string: `None` and `""` are falsy. -/
def pyStrTruthy (s : Option String) : Bool :=
  match s with
  | none => false
  | some v => v != ""

/-- Loop state of analyze_route_conditions (server.py lines 1253-1257). -/
structure RouteCondState where
  all_conditions : List RoadCondition
  worst_severity : ℤ
  worst_condition : String
  reroute_needed : Bool
  reroute_reason : Option String

/-- Per-waypoint body of analyze_route_conditions (server.py lines
1259-1272): record the derived condition, track the strictly-worst
severity, and set the reroute flag/reason on severity ≥ 3 (the reason only
while still falsy, i.e. for the first such waypoint). -/
noncomputable def route_cond_step (st : RouteCondState) (wp : WaypointWeather) :
    RouteCondState :=
  let road_cond := derive_road_condition wp.weather wp.alerts
  let st1 := { st with all_conditions := st.all_conditions ++ [road_cond] }
  let st2 :=
    if road_cond.severity > st1.worst_severity then
      { st1 with
        worst_severity := road_cond.severity,
        worst_condition := road_cond.condition }
    else st1
  if road_cond.severity ≥ 3 then
    { st2 with
      reroute_needed := true,
      reroute_reason :=
        if pyStrTruthy st2.reroute_reason then st2.reroute_reason
        else some (reroute_reason_text wp) }
  else st2

/-- Ordered dict counting: `condition_counts[label] = get(label, 0) + 1`
on a Python dict preserving insertion order. -/
def dict_bump : List (String × ℕ) → String → List (String × ℕ)
  | [], k => [(k, 1)]
  | (k0, v) :: rest, k =>
    if k0 == k then (k0, v + 1) :: rest else (k0, v) :: dict_bump rest k

/-- analyze_route_conditions (server.py lines 1251-1286), returning the
tuple (summary, worst_condition, reroute_recommended, reroute_reason). -/
noncomputable def analyze_route_conditions (waypoints_weather : List WaypointWeather) :
    String × String × Bool × Option String :=
  let st := waypoints_weather.foldl route_cond_step ⟨[], 0, ("dry"), false, none⟩
  let condition_counts :=
    (st.all_conditions.filter (fun c => c.condition != ("dry"))).foldl
      (fun m c => dict_bump m c.label) []
  let summary :=
    if condition_counts.isEmpty then
      ("✅ Good road conditions expected throughout your route")
    else
      ("⚠️ Road hazards detected: ") ++ String.intercalate (", ")
        (condition_counts.map (fun p => toString p.2 ++ (" segments with ") ++ p.1))
  (summary, st.worst_condition, st.reroute_needed, st.reroute_reason)

/-- Route data as assembled by get_mapbox_route on success (server.py
lines 448-454): geometry, the provider's raw duration divided by 60, and
the provider's raw distance divided by 1609.34. -/
structure RouteData where
  geometry : String
  duration : ℚ
  distance : ℚ

/-- The successful result of get_mapbox_route (server.py lines 448-454)
from the provider's raw duration and distance values. -/
def get_mapbox_route_data (geometry : String) (raw_duration raw_distance : ℚ) :
    RouteData :=
  ⟨geometry, raw_duration / 60, raw_distance / 1609.34⟩

/-- Python `round(x)` to the nearest integer, half to even. -/
def pyRound0 (q : ℚ) : ℤ :=
  if q - ⌊q⌋ = 1 / 2 then (if ⌊q⌋ % 2 = 0 then ⌊q⌋ else ⌊q⌋ + 1) else ⌊q + 1 / 2⌋

/-- Python `round(x, 1)`. -/
def pyRound1 (q : ℚ) : ℚ := (pyRound0 (q * 10) : ℚ) / 10

/-- The total_distance_miles response field (server.py lines 1488 and
1496): the route distance — already miles — divided by 1609.34 once more,
then rounded to one decimal. -/
def response_total_distance_miles (route_data : RouteData) : ℚ :=
  pyRound1 (route_data.distance / 1609.34)

/-- Replace the reported temperature of a waypoint's weather snapshot,
when one is present. -/
def set_temperature (t : Option ℤ) (wp : WaypointWeather) : WaypointWeather :=
  { wp with weather := wp.weather.map (fun w => { w with temperature := t }) }

/-- Weather reporting exactly 0°F with freezing rain. -/
def freezing_rain_at_zero : WeatherData :=
  { temperature := some 0, conditions := some ("Freezing Rain"),
    wind_speed := some ("0 mph") }

/-- A waypoint reporting 0°F freezing rain and no alerts. -/
def wp_freezing_rain_zero : WaypointWeather :=
  ⟨⟨0, 0, none, none, none, none⟩, some freezing_rain_at_zero, [], none⟩

open Classical in
/-- Python math.atan2(y, x), by quadrant. -/
noncomputable def atan2 (y x : ℝ) : ℝ :=
  if 0 < x then Real.arctan (y / x)
  else if x < 0 ∧ 0 ≤ y then Real.arctan (y / x) + Real.pi
  else if x < 0 then Real.arctan (y / x) - Real.pi
  else if 0 < y then Real.pi / 2
  else if y < 0 then -(Real.pi / 2)
  else 0

/-- Great-circle distance in miles, haversine_distance (server.py lines
286-297); math.radians(x) is x·π/180. -/
noncomputable def haversine_distance (lat1 lon1 lat2 lon2 : ℝ) : ℝ :=
  let R : ℝ := 3959
  let lat1_rad := lat1 * (Real.pi / 180)
  let lat2_rad := lat2 * (Real.pi / 180)
  let delta_lat := (lat2 - lat1) * (Real.pi / 180)
  let delta_lon := (lon2 - lon1) * (Real.pi / 180)
  let a := Real.sin (delta_lat / 2) ^ 2 +
    Real.cos lat1_rad * Real.cos lat2_rad * Real.sin (delta_lon / 2) ^ 2
  let c := 2 * atan2 (Real.sqrt a) (Real.sqrt (1 - a))
  R * c

/-- calculate_eta (server.py lines 299-301): minutes, integer-truncated. -/
noncomputable def calculate_eta (distance_miles avg_speed_mph : ℝ) : ℤ :=
  pytruncR (distance_miles / avg_speed_mph * 60)

open Classical in
/-- Python `round(x)` on reals, half to even. -/
noncomputable def pyRound0R (x : ℝ) : ℤ :=
  if x - ⌊x⌋ = 1 / 2 then (if ⌊x⌋ % 2 = 0 then ⌊x⌋ else ⌊x⌋ + 1) else ⌊x + 1 / 2⌋

/-- Python `round(x, 1)` on reals. -/
noncomputable def pyRound1R (x : ℝ) : ℝ := (pyRound0R (x * 10) : ℝ) / 10

open Classical in
/-- The interior loop of extract_waypoints_from_route (server.py lines
326-344): walk consecutive coordinate pairs accumulating distance and emit
a "Mile" waypoint whenever the distance accumulated since the last
emission reaches the interval; returns the emitted waypoints and the final
total distance. -/
noncomputable def sample_loop (interval_miles : ℝ) (dep_time : ℤ) :
    (ℝ × ℝ) → List (ℝ × ℝ) → ℝ → ℝ → List Waypoint × ℝ
  | _, [], total_distance, _ => ([], total_distance)
  | prev, c :: rest, total_distance, last_waypoint_distance =>
    let segment_distance := haversine_distance prev.1 prev.2 c.1 c.2
    let total' := total_distance + segment_distance
    if total' - last_waypoint_distance ≥ interval_miles then
      let eta_mins := calculate_eta total' 55
      let res := sample_loop interval_miles dep_time c rest total' total'
      (⟨c.1, c.2, some (("Mile ") ++ toString (pytruncR total')),
        some (pyRound1R total'), some eta_mins, some (dep_time + eta_mins)⟩ :: res.1,
        res.2)
    else sample_loop interval_miles dep_time c rest total' last_waypoint_distance

open Classical in
/-- extract_waypoints_from_route (server.py lines 303-365), parameterized
by the polyline decoder (an external library call; a malformed polyline is
a decoder returning the empty list): the first coordinate is always
emitted as "Start" at distance 0, the interior loop samples at the
interval, and the last coordinate is appended as "Destination" when the
list still holds only Start OR the last emitted waypoint is more than 10
miles away from it. -/
noncomputable def extract_waypoints_from_route (decode : String → List (ℝ × ℝ))
    (encoded_polyline : String) (interval_miles : ℝ) (dep_time : ℤ) : List Waypoint :=
  match decode encoded_polyline with
  | [] => []
  | c0 :: rest =>
    let startW : Waypoint := ⟨c0.1, c0.2, some ("Start"), some 0, some 0, some dep_time⟩
    let res := sample_loop interval_miles dep_time c0 rest 0 0
    let waypoints := startW :: res.1
    let total_distance := res.2
    let endC := (c0 :: rest).getLast (List.cons_ne_nil c0 rest)
    let lastW := waypoints.getLast (List.cons_ne_nil startW res.1)
    if waypoints.length = 1 ∨
        haversine_distance lastW.lat lastW.lon endC.1 endC.2 > 10 then
      waypoints ++
        [⟨endC.1, endC.2, some ("Destination"), some (pyRound1R total_distance),
          some (calculate_eta total_distance 55),
          some (dep_time + calculate_eta total_distance 55)⟩]
    else waypoints

/-- An intermediate stop of the route request (server.py class StopPoint). -/
structure StopPoint where
  location : String
  type : String := ("stop")

/-- A geocoded coordinate pair as returned by geocode_location
(server.py lines 400-419). -/
structure GeoCoords where
  lat : ℚ
  lon : ℚ

/-- The route request fields consumed by the staged pipeline
(server.py class RouteRequest). -/
structure RouteRequest where
  origin : String
  destination : String
  stops : List StopPoint := []

/-- State assembled by the orchestrator through its waypoint-sampling
stage (server.py lines 1370-1402). -/
structure OrchState where
  origin_coords : GeoCoords
  dest_coords : GeoCoords
  stop_coords : List GeoCoords
  route_data : RouteData
  waypoints : List Waypoint

/-- The 400 detail for an unresolvable origin (server.py line 1373). -/
def geocode_origin_error_msg (origin : String) : String :=
  ("Could not geocode origin: ") ++ origin

/-- The 400 detail for an unresolvable destination (server.py line 1377). -/
def geocode_dest_error_msg (destination : String) : String :=
  ("Could not geocode destination: ") ++ destination

/-- The 400 detail for a no-route answer (server.py lines 1391-1394). -/
def no_route_error_msg (origin destination : String) : String :=
  ("No drivable route found between ") ++ origin ++ (" and ") ++ destination ++
    (". These locations may not be connected by roads (e.g., Nome, Alaska is only accessible by air). Try different locations.")

/-- The staged control flow of get_route_weather up to waypoint sampling
(server.py lines 1370-1402), parameterized over the geocoder, the routing
provider and the polyline decoder; a failure is an (HTTP status, detail)
pair. Stops that fail to geocode are skipped when building stop_coords,
and an empty stop_coords list is passed to the router as None. -/
noncomputable def get_route_weather_stages
    (geocode : String → Option GeoCoords)
    (get_route : GeoCoords → GeoCoords → Option (List GeoCoords) → Option RouteData)
    (decode : String → List (ℝ × ℝ)) (req : RouteRequest) (dep_time : ℤ) :
    Except (ℕ × String) OrchState :=
  match geocode req.origin with
  | none => .error (400, geocode_origin_error_msg req.origin)
  | some origin_coords =>
    match geocode req.destination with
    | none => .error (400, geocode_dest_error_msg req.destination)
    | some dest_coords =>
      let stop_coords := req.stops.filterMap (fun s => geocode s.location)
      match get_route origin_coords dest_coords
          (if stop_coords.isEmpty then none else some stop_coords) with
      | none => .error (400, no_route_error_msg req.origin req.destination)
      | some route_data =>
        let waypoints :=
          extract_waypoints_from_route decode route_data.geometry 50 dep_time
        if waypoints.isEmpty then
          .error (500, ("Could not extract waypoints from route"))
        else
          .ok ⟨origin_coords, dest_coords, stop_coords, route_data, waypoints⟩

/-- C4 (amended): the four inlined wind-speed parsers agree on every input,
and the common value is the number formed by concatenating the digit
characters of the first whitespace-separated token (0 when the text is
missing or that token has no digits); "15 to 25 mph" parses to 15, but
"15-25 mph" parses to 1525, not 15. -/
theorem wind_parsing_consistent (ws : Option String) :
    safety_wind_speed ws = hazard_wind_speed ws ∧
    safety_wind_speed ws = trucker_wind_speed ws ∧
    safety_wind_speed ws = road_wind_speed ws ∧
    safety_wind_speed (some ("15 to 25 mph")) = 15 ∧
    safety_wind_speed (some ("15-25 mph")) = 1525 :=
  ⟨rfl, rfl, rfl, by decide, by decide⟩

/-- C4 counterexample: on the text "15-25 mph" the code's parser yields
1525 (all digits of the first token "15-25" concatenated), while the first
run of digits — which the claim says is parsed everywhere, predicting 15 —
is 15. -/
theorem wind_parsing_dash_counterexample :
    safety_wind_speed (some ("15-25 mph")) = 1525 ∧
    first_digit_run ("15-25 mph") = 15 ∧ (1525 : ℕ) ≠ 15 :=
  ⟨by decide, by decide, by decide⟩

/-- A prefix match against a concatenation yields containment of the right
part. -/
theorem charsContain_of_startsWith (xs ys : List Char) :
    ∀ l : List Char, charsStartWith l (xs ++ ys) = true → charsContain l ys = true := by
  induction xs with
  | nil =>
    intro l h
    cases l with
    | nil =>
      cases ys with
      | nil => rfl
      | cons y ts => simp [charsStartWith] at h
    | cons c cs =>
      simp only [charsContain]
      rw [List.nil_append] at h
      simp [h]
  | cons x xs ih =>
    intro l h
    cases l with
    | nil => simp [charsStartWith] at h
    | cons c cs =>
      simp only [List.cons_append, charsStartWith, Bool.and_eq_true] at h
      have := ih cs h.2
      simp only [charsContain, Bool.or_eq_true]
      exact Or.inr this

/-- Containment of a concatenation yields containment of the right part. -/
theorem charsContain_append_right (xs ys : List Char) :
    ∀ l : List Char, charsContain l (xs ++ ys) = true → charsContain l ys = true := by
  intro l
  induction l with
  | nil =>
    intro h
    simp only [charsContain, List.isEmpty_eq_true, List.append_eq_nil] at h
    simp [charsContain, h.2]
  | cons c cs ih =>
    intro h
    simp only [charsContain, Bool.or_eq_true] at h ⊢
    rcases h with h | h
    · rcases Bool.or_eq_true _ _ |>.mp
        (by simpa [charsContain] using charsContain_of_startsWith xs ys (c :: cs) h) with h' | h'
      · exact Or.inl h'
      · exact Or.inr h'
    · exact Or.inr (ih h)

/-- A string containing "flash flood" contains "flood". -/
theorem pyIn_flood_of_flash (ev : String) (h : pyIn ("flash flood") ev = true) :
    pyIn ("flood") ev = true := by
  have e : ("flash flood").data = ("flash ").data ++ ("flood").data := by decide
  unfold pyIn at h ⊢
  rw [e] at h
  exact charsContain_append_right _ _ _ h

/-- The severe-alert scan of derive_road_condition, projected to
(condition, severity) pairs, is the first-match scan of the amended order. -/
theorem severe_alert_pair (l : List WeatherAlert) :
    (severe_alert_road_condition l).map (fun rc => (rc.condition, rc.severity)) =
      l.findSome? (fun a =>
        if pyIn ("flood") (pyLower a.event) then some (("flooded"), (4 : ℤ))
        else if pyIn ("ice") (pyLower a.event) || pyIn ("freezing") (pyLower a.event) then
          some (("icy"), (3 : ℤ))
        else none) := by
  induction l with
  | nil => rfl
  | cons a rest ih =>
    rw [List.findSome?_cons]
    by_cases hf : pyIn ("flood") (pyLower a.event) = true
    · simp [severe_alert_road_condition, hf]
    · have hff : pyIn ("flash flood") (pyLower a.event) = false := by
        cases h' : pyIn ("flash flood") (pyLower a.event) with
        | false => rfl
        | true => exact absurd (pyIn_flood_of_flash _ h') (by simp [hf])
      by_cases hi : (pyIn ("ice") (pyLower a.event) ||
          pyIn ("freezing") (pyLower a.event)) = true
      · simp [severe_alert_road_condition, hf, hff, hi]
      · simp only [Bool.not_eq_true] at hf hi
        simp [severe_alert_road_condition, hf, hff, hi, ih]

/-- C1 (amended): derive_road_condition realises the documented 10-step
decision order, with the severe-alert stage scanning alerts in list order
(flood before ice/freezing within each alert); in particular,
temperature=28 with conditions "Freezing Rain" yields icy severity 3, and
wind_speed "45 mph" with no precipitation yields dangerous_wind
severity 3. -/
theorem road_condition_matches_amended_order (weather : Option WeatherData)
    (alerts : List WeatherAlert) :
    ((derive_road_condition weather alerts).condition,
        (derive_road_condition weather alerts).severity) =
      classify_order_amended weather alerts ∧
    (derive_road_condition
        (some { temperature := some 28, conditions := some ("Freezing Rain") })
        []).condition = ("icy") ∧
    (derive_road_condition
        (some { temperature := some 28, conditions := some ("Freezing Rain") })
        []).severity = 3 ∧
    (derive_road_condition (some { wind_speed := some ("45 mph") }) []).condition
      = ("dangerous_wind") ∧
    (derive_road_condition (some { wind_speed := some ("45 mph") }) []).severity = 3 := by
  refine ⟨?_, by decide, by decide, by decide, by decide⟩
  cases weather with
  | none => rfl
  | some w =>
    unfold derive_road_condition classify_order_amended
    dsimp only
    rw [← severe_alert_pair]
    cases hsev : severe_alert_road_condition
        (List.filter (fun a => a.severity == "Extreme" || a.severity == "Severe") alerts) with
    | some rc => rfl
    | none =>
      unfold classify_tail
      dsimp only
      split_ifs <;> first | rfl | omega

/-- C1 counterexample: with weather present (all fields defaulted) and the
severe alerts [Ice Storm Warning, Flash Flood Warning] in that order,
derive_road_condition returns icy severity 3, while the documented decision
order as stated (flood step before ice step, each ranging over all severe
alerts) yields flooded severity 4. -/
theorem road_condition_alert_order_counterexample :
    (derive_road_condition (some {})
        [⟨"a1", "Ice Storm Warning in effect", "Severe", "Ice Storm Warning", "", none⟩,
         ⟨"a2", "Flash Flood Warning in effect", "Severe", "Flash Flood Warning", "", none⟩]).condition
      = ("icy") ∧
    (derive_road_condition (some {})
        [⟨"a1", "Ice Storm Warning in effect", "Severe", "Ice Storm Warning", "", none⟩,
         ⟨"a2", "Flash Flood Warning in effect", "Severe", "Flash Flood Warning", "", none⟩]).severity
      = 3 ∧
    classify_order_claim (some {})
        [⟨"a1", "Ice Storm Warning in effect", "Severe", "Ice Storm Warning", "", none⟩,
         ⟨"a2", "Flash Flood Warning in effect", "Severe", "Flash Flood Warning", "", none⟩]
      = (("flooded"), 4) ∧
    (("icy" : String), (3 : ℤ)) ≠ (("flooded"), 4) := by
  refine ⟨by decide, by decide, by decide, by decide⟩

/-- Containment of a concatenation yields containment of the suffix part,
on strings. -/
theorem pyIn_right_part (pre suf full hay : String)
    (hdata : full.data = pre.data ++ suf.data) (h : pyIn full hay = true) :
    pyIn suf hay = true := by
  unfold pyIn at h ⊢
  rw [hdata] at h
  exact charsContain_append_right _ _ _ h

/-- Waypoints without weather leave the safety-score state unchanged. -/
theorem safety_fold_no_weather (vehicle : VehicleProfile) (vt : String) :
    ∀ wps : List WaypointWeather, (∀ wp ∈ wps, wp.weather = none) →
      ∀ st, wps.foldl (safety_waypoint_step vehicle vt) st = st := by
  intro wps
  induction wps with
  | nil => intro _ st; rfl
  | cons wp rest ih =>
    intro h st
    have hwp : wp.weather = none := h wp (List.mem_cons_self _ _)
    have hstep : safety_waypoint_step vehicle vt st wp = st := by
      unfold safety_waypoint_step
      rw [hwp]
    rw [List.foldl_cons, hstep]
    exact ih (fun x hx => h x (List.mem_cons_of_mem _ hx)) st

/-- A benign waypoint (C2 scenario as amended) leaves the safety-score
state unchanged. -/
theorem safety_step_benign (vehicle : VehicleProfile) (vt : String)
    (wp : WaypointWeather) (h : BenignWaypoint wp) (st : ScoreState) :
    safety_waypoint_step vehicle vt st wp = st := by
  obtain ⟨w, hw, ht, hwind, halerts, h1, h2, h3, h4, h5, h6⟩ := h
  unfold safety_waypoint_step
  rw [hw]
  dsimp only
  rw [ht, hwind, halerts]
  norm_num [pyOrZ, h1, h2, h3, h4, h5, h6]

/-- Benign waypoints leave the safety-score state unchanged (whole fold). -/
theorem safety_fold_benign (vehicle : VehicleProfile) (vt : String) :
    ∀ wps : List WaypointWeather, (∀ wp ∈ wps, BenignWaypoint wp) →
      ∀ st, wps.foldl (safety_waypoint_step vehicle vt) st = st := by
  intro wps
  induction wps with
  | nil => intro _ st; rfl
  | cons wp rest ih =>
    intro h st
    rw [List.foldl_cons, safety_step_benign vehicle vt wp (h wp (List.mem_cons_self _ _))]
    exact ih (fun x hx => h x (List.mem_cons_of_mem _ hx)) st

/-- A benign waypoint contributes no hazard alerts. -/
theorem hazard_step_benign (wp : WaypointWeather) (h : BenignWaypoint wp) :
    hazard_waypoint_alerts wp = [] := by
  obtain ⟨w, hw, ht, hwind, halerts, h1, h2, h3, h4, h5, h6⟩ := h
  have hwind2 : hazard_wind_speed w.wind_speed = 0 := hwind
  have hhr : pyIn ("heavy rain") (pyLower (pyOrStr w.conditions (""))) = false := by
    cases hx : pyIn ("heavy rain") (pyLower (pyOrStr w.conditions (""))) with
    | false => rfl
    | true =>
      exact absurd (pyIn_right_part ("heavy ") ("rain") ("heavy rain") _ (by decide) hx)
        (by simp [h3])
  unfold hazard_waypoint_alerts
  rw [hw]
  dsimp only
  rw [ht, hwind2, halerts, hhr]
  norm_num [pyOrZ, h1, h3, h4, h5, h6]

/-- Benign waypoints accumulate no hazard alerts (whole fold). -/
theorem hazard_fold_benign :
    ∀ wps : List WaypointWeather, (∀ wp ∈ wps, BenignWaypoint wp) →
      ∀ acc : List HazardAlert,
        wps.foldl (fun acc wp => acc ++ hazard_waypoint_alerts wp) acc = acc := by
  intro wps
  induction wps with
  | nil => intro _ acc; rfl
  | cons wp rest ih =>
    intro h acc
    rw [List.foldl_cons, hazard_step_benign wp (h wp (List.mem_cons_self _ _)),
      List.append_nil]
    exact ih (fun x hx => h x (List.mem_cons_of_mem _ hx)) acc

/-- C2 (amended): the overall score is an integer in [0,100] for every
input; with every waypoint's weather missing the score stays 100 with the
single default factor and recommendation; and when every waypoint has
weather with temperature 70°F, wind parsed 0, no alerts AND a conditions
text free of the hazard keywords, the score is 100 with risk level low and
the hazard alert list is empty. -/
theorem safety_score_bounded_and_calm_scenario :
    (∀ (wps : List WaypointWeather) (vt : String),
      0 ≤ (calculate_safety_score wps vt).overall_score ∧
      (calculate_safety_score wps vt).overall_score ≤ 100) ∧
    (∀ (wps : List WaypointWeather) (vt : String),
      (∀ wp ∈ wps, wp.weather = none) →
      (calculate_safety_score wps vt).overall_score = 100 ∧
      (calculate_safety_score wps vt).factors = [("Good driving conditions")] ∧
      (calculate_safety_score wps vt).recommendations
        = [("Safe travels! Normal driving conditions expected")]) ∧
    (∀ (wps : List WaypointWeather) (vt : String) (dep : ℤ),
      (∀ wp ∈ wps, BenignWaypoint wp) →
      (calculate_safety_score wps vt).overall_score = 100 ∧
      (calculate_safety_score wps vt).risk_level = ("low") ∧
      generate_hazard_alerts wps dep = []) := by
  refine ⟨?_, ?_, ?_⟩
  · intro wps vt
    exact ⟨le_max_left _ _, max_le (by norm_num) (min_le_left _ _)⟩
  · intro wps vt h
    have hst : safety_state wps vt = ⟨100, [], []⟩ :=
      safety_fold_no_weather _ _ wps h _
    refine ⟨?_, ?_, ?_⟩ <;>
      · simp only [calculate_safety_score, hst]
        decide
  · intro wps vt dep h
    have hst : safety_state wps vt = ⟨100, [], []⟩ :=
      safety_fold_benign _ _ wps h _
    refine ⟨?_, ?_, ?_⟩
    · simp only [calculate_safety_score, hst]
      decide
    · simp only [calculate_safety_score, hst]
      decide
    · unfold generate_hazard_alerts
      rw [hazard_fold_benign wps h, List.mergeSort_nil]
      rfl

/-- Witness for C2's amended theorem at concrete inputs: a
weatherless-waypoint list and a benign clear-sky waypoint list. -/
theorem safety_score_bounded_and_calm_scenario_witness :
    ((calculate_safety_score [⟨⟨0, 0, none, none, none, none⟩, none, [], none⟩] ("car")).overall_score
        = 100 ∧
      (calculate_safety_score [⟨⟨0, 0, none, none, none, none⟩, none, [], none⟩] ("car")).factors
        = [("Good driving conditions")] ∧
      (calculate_safety_score [⟨⟨0, 0, none, none, none, none⟩, none, [], none⟩] ("car")).recommendations
        = [("Safe travels! Normal driving conditions expected")]) ∧
    ((calculate_safety_score [⟨⟨0, 0, none, none, none, none⟩, some calm_weather70, [], none⟩] ("semi")).overall_score
        = 100 ∧
      (calculate_safety_score [⟨⟨0, 0, none, none, none, none⟩, some calm_weather70, [], none⟩] ("semi")).risk_level
        = ("low") ∧
      generate_hazard_alerts [⟨⟨0, 0, none, none, none, none⟩, some calm_weather70, [], none⟩] 0 = []) := by
  constructor
  · exact safety_score_bounded_and_calm_scenario.2.1 _ ("car")
      (by intro wp hwp; simp at hwp; rw [hwp])
  · exact safety_score_bounded_and_calm_scenario.2.2 _ ("semi") 0
      (by
        intro wp hwp
        simp at hwp
        rw [hwp]
        exact ⟨calm_weather70, rfl, by decide, by decide, rfl, by decide, by decide,
          by decide, by decide, by decide, by decide⟩)

/-- C2 counterexample: the waypoint wp_snow satisfies the claim's scenario
hypotheses (temperature 70°F, wind parsed 0, no alerts) but its conditions
text is "snow", so the car score is 75, not 100, and the hazard alert list
is non-empty. -/
theorem safety_calm_scenario_counterexample :
    (calculate_safety_score [wp_snow] ("car")).overall_score = 75 ∧
    ((75 : ℤ) ≠ 100) ∧
    generate_hazard_alerts [wp_snow] 0 ≠ [] := by
  have hwind : hazard_wind_speed (some ("0 mph")) = 0 := by decide
  have hhr : pyIn ("heavy rain") (pyLower (pyOrStr (some ("snow")) (""))) = false := by
    decide
  have hrain : pyIn ("rain") (pyLower (pyOrStr (some ("snow")) (""))) = false := by decide
  have hshower : pyIn ("shower") (pyLower (pyOrStr (some ("snow")) (""))) = false := by
    decide
  have hstorm : pyIn ("storm") (pyLower (pyOrStr (some ("snow")) (""))) = false := by
    decide
  have hsnow : pyIn ("snow") (pyLower (pyOrStr (some ("snow")) (""))) = true := by decide
  have hfog : pyIn ("fog") (pyLower (pyOrStr (some ("snow")) (""))) = false := by decide
  have hlist : ∀ acc : List HazardAlert,
      List.foldl (fun acc wp => acc ++ hazard_waypoint_alerts wp) acc [wp_snow]
        = acc ++ hazard_waypoint_alerts wp_snow := by
    intro acc; rfl
  have hlen : (generate_hazard_alerts [wp_snow] 0).length = 1 := by
    unfold generate_hazard_alerts
    rw [hlist, List.nil_append]
    rw [List.length_take, List.length_mergeSort]
    unfold hazard_waypoint_alerts wp_snow
    dsimp only
    rw [hwind, hhr, hrain, hshower, hstorm, hsnow, hfog]
    norm_num [pyOrZ]
  refine ⟨?_, by decide, ?_⟩
  · simp +decide [calculate_safety_score, safety_state, safety_waypoint_step,
      safety_alert_step, wp_snow, vehicle_types_get, pyOrZ]
    norm_num [pytruncQ]
  · intro hcontra
    rw [hcontra] at hlen
    simp at hlen

/-- C3: evaluation at the failing input — two waypoints carrying the same
Extreme "Tornado Warning" alert make calculate_safety_score emit the factor
string "Weather alert: Tornado Warning" twice: the dedup guard compares the
bare event name against a factor list holding "Weather alert: ..." strings,
so it never fires for alert factors. -/
theorem safety_alert_factor_duplicated :
    (calculate_safety_score [wp_tornado, wp_tornado] ("car")).factors
      = [("Weather alert: Tornado Warning"), ("Weather alert: Tornado Warning")] ∧
    (calculate_safety_score [wp_tornado, wp_tornado] ("car")).overall_score = 60 := by
  constructor
  · simp +decide [calculate_safety_score, safety_state, safety_waypoint_step,
      safety_alert_step, wp_tornado, calm_weather70, tornado_alert, vehicle_types_get,
      pyOrZ]
  · simp +decide [calculate_safety_score, safety_state, safety_waypoint_step,
      safety_alert_step, wp_tornado, calm_weather70, tornado_alert, vehicle_types_get,
      pyOrZ]
    norm_num [pytruncQ]

/-- C7 (amended): the packing list never exceeds 8 entries, and because
the phone-charger and snacks suggestions are appended BEFORE the cap, both
are present whenever the uncapped list fits within the cap (at most 6
triggered suggestions); with more they can be cut off. -/
theorem packing_cap_and_always_items (wps : List WaypointWeather) :
    (generate_packing_suggestions wps).length ≤ 8 ∧
    ((packing_suggestions_uncapped wps).length ≤ 8 →
      (⟨("Phone charger"), ("Keep devices charged for navigation"), ("essential")⟩ :
          PackingSuggestion) ∈ generate_packing_suggestions wps ∧
      (⟨("Snacks & water"), ("Stay hydrated and energized"), ("recommended")⟩ :
          PackingSuggestion) ∈ generate_packing_suggestions wps) := by
  constructor
  · exact List.length_take_le 8 (packing_suggestions_uncapped wps)
  · intro h
    unfold generate_packing_suggestions
    rw [List.take_of_length_le h]
    constructor <;> simp [packing_suggestions_uncapped]

/-- Witness for C7's amended theorem: the empty waypoint list, whose
uncapped suggestion list is exactly the two always-present items. -/
theorem packing_cap_and_always_items_witness :
    (generate_packing_suggestions []).length ≤ 8 ∧
    (packing_suggestions_uncapped []).length ≤ 8 ∧
    (⟨("Phone charger"), ("Keep devices charged for navigation"), ("essential")⟩ :
        PackingSuggestion) ∈ generate_packing_suggestions [] ∧
    (⟨("Snacks & water"), ("Stay hydrated and energized"), ("recommended")⟩ :
        PackingSuggestion) ∈ generate_packing_suggestions [] :=
  ⟨(packing_cap_and_always_items []).1,
    by decide,
    ((packing_cap_and_always_items []).2 (by decide)).1,
    ((packing_cap_and_always_items []).2 (by decide)).2⟩

/-- C7 counterexample: with nine triggered suggestions (cold and hot
temperatures plus all four condition flags) the 8-entry cap cuts the list
before the always-appended phone-charger and snacks entries, so neither is
present although the claim says they always are. -/
theorem packing_always_items_counterexample :
    (generate_packing_suggestions [wp_cold_mix, wp_hot]).length = 8 ∧
    ¬ ((⟨("Phone charger"), ("Keep devices charged for navigation"), ("essential")⟩ :
        PackingSuggestion) ∈ generate_packing_suggestions [wp_cold_mix, wp_hot]) ∧
    ¬ ((⟨("Snacks & water"), ("Stay hydrated and energized"), ("recommended")⟩ :
        PackingSuggestion) ∈ generate_packing_suggestions [wp_cold_mix, wp_hot]) :=
  ⟨by decide, by decide, by decide⟩

/-- C9: total_distance_miles is the provider's raw distance divided by
1609.34 twice and rounded to one decimal — for a raw distance of
1609.34² (one mile worth of meters times 1609.34) the response says 1.0
while the miles value get_mapbox_route produced rounds to 1609.3. -/
theorem total_distance_double_division (geometry : String)
    (raw_duration raw_distance : ℚ) :
    response_total_distance_miles
        (get_mapbox_route_data geometry raw_duration raw_distance)
      = pyRound1 (raw_distance / 1609.34 / 1609.34) ∧
    response_total_distance_miles
        (get_mapbox_route_data ("g") 0 (1609.34 * 1609.34)) = 1 ∧
    pyRound1 ((1609.34 * 1609.34) / 1609.34) = 1609.3 := by
  refine ⟨rfl, ?_, ?_⟩ <;>
    norm_num [response_total_distance_miles, get_mapbox_route_data, pyRound1, pyRound0]

/-- The reroute reason string is never empty (it embeds the literal
" conditions at "). -/
theorem reroute_reason_text_ne_empty (wp : WaypointWeather) :
    reroute_reason_text wp ≠ "" := by
  intro h
  have hlen := congrArg String.length h
  simp only [reroute_reason_text, String.length_append] at hlen
  have h15 : (" conditions at ").length = 15 := rfl
  have h0 : ("" : String).length = 0 := rfl
  omega

/-- route_cond_step's effect on the reroute flag. -/
theorem route_cond_step_needed (st : RouteCondState) (wp : WaypointWeather) :
    (route_cond_step st wp).reroute_needed
      = (st.reroute_needed
          || decide (3 ≤ (derive_road_condition wp.weather wp.alerts).severity)) := by
  unfold route_cond_step
  dsimp only
  by_cases hp : 3 ≤ (derive_road_condition wp.weather wp.alerts).severity
  · rw [if_pos hp]
    simp [hp]
  · rw [if_neg hp]
    split <;> simp [hp]

/-- route_cond_step's effect on the reroute reason. -/
theorem route_cond_step_reason (st : RouteCondState) (wp : WaypointWeather) :
    (route_cond_step st wp).reroute_reason
      = if 3 ≤ (derive_road_condition wp.weather wp.alerts).severity then
          (if pyStrTruthy st.reroute_reason then st.reroute_reason
           else some (reroute_reason_text wp))
        else st.reroute_reason := by
  unfold route_cond_step
  dsimp only
  by_cases hp : 3 ≤ (derive_road_condition wp.weather wp.alerts).severity
  · rw [if_pos hp, if_pos hp]
    split <;> rfl
  · rw [if_neg hp, if_neg hp]
    split <;> rfl

/-- The waypoint fold of analyze_route_conditions: the reroute flag is an
any-fold of the severity-≥3 test, and the reason — starting from a falsy
one — is built from the first waypoint passing that test. -/
theorem route_cond_fold_flags (wps : List WaypointWeather) :
    ∀ st : RouteCondState,
      st.reroute_reason = none ∨ (∃ r, st.reroute_reason = some r ∧ r ≠ "") →
      ((wps.foldl route_cond_step st).reroute_needed
          = (st.reroute_needed
              || wps.any (fun wp =>
                  3 ≤ (derive_road_condition wp.weather wp.alerts).severity)) ∧
        (wps.foldl route_cond_step st).reroute_reason
          = (match st.reroute_reason with
             | some r => some r
             | none =>
                (wps.find? (fun wp =>
                    3 ≤ (derive_road_condition wp.weather wp.alerts).severity)).map
                  reroute_reason_text)) := by
  induction wps with
  | nil =>
    intro st hinv
    refine ⟨by simp, ?_⟩
    rw [List.foldl_nil]
    cases h : st.reroute_reason <;> rfl
  | cons wp rest ih =>
    intro st hinv
    rw [List.foldl_cons, List.any_cons, List.find?_cons]
    by_cases hp : 3 ≤ (derive_road_condition wp.weather wp.alerts).severity
    · have hinv1 : (route_cond_step st wp).reroute_reason = none ∨
          (∃ r, (route_cond_step st wp).reroute_reason = some r ∧ r ≠ "") := by
        rw [route_cond_step_reason, if_pos hp]
        rcases hinv with h | ⟨r, hsr, hrne⟩
        · rw [h]
          exact Or.inr ⟨reroute_reason_text wp, by simp [pyStrTruthy],
            reroute_reason_text_ne_empty wp⟩
        · rw [hsr]
          exact Or.inr ⟨r, by simp [pyStrTruthy, bne_iff_ne, hrne], hrne⟩
      obtain ⟨ihn, ihr⟩ := ih (route_cond_step st wp) hinv1
      constructor
      · rw [ihn, route_cond_step_needed]
        simp [hp]
      · rw [ihr, route_cond_step_reason, if_pos hp]
        rcases hinv with h | ⟨r, hsr, hrne⟩
        · rw [h]
          simp [pyStrTruthy, hp]
        · rw [hsr]
          simp [pyStrTruthy, bne_iff_ne, hrne]
    · have hinv1 : (route_cond_step st wp).reroute_reason = none ∨
          (∃ r, (route_cond_step st wp).reroute_reason = some r ∧ r ≠ "") := by
        rw [route_cond_step_reason, if_neg hp]
        exact hinv
      obtain ⟨ihn, ihr⟩ := ih (route_cond_step st wp) hinv1
      constructor
      · rw [ihn, route_cond_step_needed]
        simp [hp]
      · rw [ihr, route_cond_step_reason, if_neg hp]
        simp [hp]

/-- C8: reroute_recommended is true iff some waypoint's derived road
condition has severity ≥ 3, and when so the reason string is built from
the first such waypoint in route order. -/
theorem reroute_iff_severity_ge3 (wps : List WaypointWeather) :
    ((analyze_route_conditions wps).2.2.1 = true ↔
      ∃ wp ∈ wps, 3 ≤ (derive_road_condition wp.weather wp.alerts).severity) ∧
    (analyze_route_conditions wps).2.2.2
      = (wps.find? (fun wp =>
          3 ≤ (derive_road_condition wp.weather wp.alerts).severity)).map
          reroute_reason_text := by
  obtain ⟨hn, hr⟩ :=
    route_cond_fold_flags wps ⟨[], 0, ("dry"), false, none⟩ (Or.inl rfl)
  constructor
  · rw [show (analyze_route_conditions wps).2.2.1
        = (wps.foldl route_cond_step ⟨[], 0, ("dry"), false, none⟩).reroute_needed
        from rfl, hn]
    simp [List.any_eq_true]
  · rw [show (analyze_route_conditions wps).2.2.2
        = (wps.foldl route_cond_step ⟨[], 0, ("dry"), false, none⟩).reroute_reason
        from rfl, hr]

/-- The safety-score waypoint body only reads the temperature through its
Python-truthy default, so two temperatures with equal defaulted values are
interchangeable. -/
theorem safety_step_temp_default (vehicle : VehicleProfile) (vt : String)
    (st : ScoreState) (wp : WaypointWeather) (t1 t2 : Option ℤ)
    (h : pyOrZ t1 70 = pyOrZ t2 70) :
    safety_waypoint_step vehicle vt st (set_temperature t1 wp)
      = safety_waypoint_step vehicle vt st (set_temperature t2 wp) := by
  unfold set_temperature safety_waypoint_step
  cases hw : wp.weather with
  | none => rfl
  | some w =>
    dsimp only [Option.map]
    rw [h]

/-- calculate_safety_score is invariant under swapping temperatures with
equal defaulted values. -/
theorem safety_score_temp_default (wps : List WaypointWeather) (vt : String)
    (t1 t2 : Option ℤ) (h : pyOrZ t1 70 = pyOrZ t2 70) :
    calculate_safety_score (wps.map (set_temperature t1)) vt
      = calculate_safety_score (wps.map (set_temperature t2)) vt := by
  unfold calculate_safety_score safety_state
  rw [List.foldl_map, List.foldl_map]
  have hstep : (fun (st : ScoreState) wp =>
      safety_waypoint_step (vehicle_types_get vt) vt st (set_temperature t1 wp))
      = (fun (st : ScoreState) wp =>
          safety_waypoint_step (vehicle_types_get vt) vt st (set_temperature t2 wp)) := by
    funext st wp
    exact safety_step_temp_default _ _ _ _ _ _ h
  rw [hstep]

/-- The hazard-alert waypoint body only reads the temperature through its
Python-truthy default. -/
theorem hazard_step_temp_default (wp : WaypointWeather) (t1 t2 : Option ℤ)
    (h : pyOrZ t1 70 = pyOrZ t2 70) :
    hazard_waypoint_alerts (set_temperature t1 wp)
      = hazard_waypoint_alerts (set_temperature t2 wp) := by
  unfold set_temperature hazard_waypoint_alerts
  cases hw : wp.weather with
  | none => rfl
  | some w =>
    dsimp only [Option.map]
    rw [h]

/-- generate_hazard_alerts is invariant under swapping temperatures with
equal defaulted values. -/
theorem hazard_temp_default (wps : List WaypointWeather) (dep : ℤ)
    (t1 t2 : Option ℤ) (h : pyOrZ t1 70 = pyOrZ t2 70) :
    generate_hazard_alerts (wps.map (set_temperature t1)) dep
      = generate_hazard_alerts (wps.map (set_temperature t2)) dep := by
  unfold generate_hazard_alerts
  rw [List.foldl_map, List.foldl_map]
  have hstep : (fun (acc : List HazardAlert) wp =>
      acc ++ hazard_waypoint_alerts (set_temperature t1 wp))
      = (fun (acc : List HazardAlert) wp =>
          acc ++ hazard_waypoint_alerts (set_temperature t2 wp)) := by
    funext acc wp
    rw [hazard_step_temp_default _ _ _ h]
  rw [hstep]

/-- C10: temperature None and temperature 0 are both Python-falsy, so every
consumer substitutes its default — 50°F in derive_road_condition, 70°F in
calculate_safety_score and generate_hazard_alerts; hence a reported 0°F
with freezing rain is classified wet (not icy), incurs no
freezing-temperature factor, and yields no ice hazard alert. -/
theorem zero_temperature_uses_defaults :
    (∀ (w : WeatherData) (alerts : List WeatherAlert),
      derive_road_condition (some { w with temperature := some 0 }) alerts
          = derive_road_condition (some { w with temperature := some 50 }) alerts ∧
      derive_road_condition (some { w with temperature := none }) alerts
          = derive_road_condition (some { w with temperature := some 50 }) alerts) ∧
    (∀ (wps : List WaypointWeather) (vt : String),
      calculate_safety_score (wps.map (set_temperature (some 0))) vt
          = calculate_safety_score (wps.map (set_temperature (some 70))) vt ∧
      calculate_safety_score (wps.map (set_temperature none)) vt
          = calculate_safety_score (wps.map (set_temperature (some 70))) vt) ∧
    (∀ (wps : List WaypointWeather) (dep : ℤ),
      generate_hazard_alerts (wps.map (set_temperature (some 0))) dep
          = generate_hazard_alerts (wps.map (set_temperature (some 70))) dep ∧
      generate_hazard_alerts (wps.map (set_temperature none)) dep
          = generate_hazard_alerts (wps.map (set_temperature (some 70))) dep) ∧
    (derive_road_condition (some freezing_rain_at_zero) []).condition = ("wet") ∧
    ((calculate_safety_score [wp_freezing_rain_zero] ("car")).factors.contains
        ("Freezing temperatures - ice risk") = false) ∧
    (∀ a ∈ generate_hazard_alerts [wp_freezing_rain_zero] 0, a.type ≠ ("ice")) := by
  refine ⟨?_, ?_, ?_, by decide, by decide, ?_⟩
  · intro w alerts
    constructor <;> simp [derive_road_condition, pyOrZ]
  · intro wps vt
    exact ⟨safety_score_temp_default wps vt _ _ rfl,
      safety_score_temp_default wps vt _ _ rfl⟩
  · intro wps dep
    exact ⟨hazard_temp_default wps dep _ _ rfl, hazard_temp_default wps dep _ _ rfl⟩
  · have h1 : hazard_wind_speed (some ("0 mph")) = 0 := by decide
    have h2 : pyIn ("heavy rain") (pyLower (pyOrStr (some ("Freezing Rain")) (""))) = false :=
      by decide
    have h3 : pyIn ("storm") (pyLower (pyOrStr (some ("Freezing Rain")) (""))) = false :=
      by decide
    have h4 : pyIn ("rain") (pyLower (pyOrStr (some ("Freezing Rain")) (""))) = true :=
      by decide
    have h5 : pyIn ("snow") (pyLower (pyOrStr (some ("Freezing Rain")) (""))) = false :=
      by decide
    have h6 : pyIn ("fog") (pyLower (pyOrStr (some ("Freezing Rain")) (""))) = false :=
      by decide
    have hx : ∃ b : HazardAlert,
        hazard_waypoint_alerts wp_freezing_rain_zero = [b] ∧ b.type = ("rain") := by
      unfold hazard_waypoint_alerts wp_freezing_rain_zero freezing_rain_at_zero
      dsimp only
      rw [h1, h2, h3, h4, h5, h6]
      norm_num [pyOrZ]
    obtain ⟨b, hb, hbt⟩ := hx
    intro a ha
    unfold generate_hazard_alerts at ha
    rw [show List.foldl (fun acc wp => acc ++ hazard_waypoint_alerts wp) []
          [wp_freezing_rain_zero] = hazard_waypoint_alerts wp_freezing_rain_zero
        from by simp] at ha
    rw [hb, List.mergeSort_singleton] at ha
    simp at ha
    rw [ha, hbt]
    decide

/-- The haversine distance from a point to itself is zero. -/
theorem haversine_distance_self (lat lon : ℝ) :
    haversine_distance lat lon lat lon = 0 := by
  unfold haversine_distance atan2
  norm_num [Real.sqrt_one, Real.arctan_zero]

/-- A "Mile ..." waypoint name is never "Destination". -/
theorem mile_name_ne_destination (s : String) :
    (("Mile ") ++ s) ≠ ("Destination") := by
  intro h
  have hdata : (("Mile ") ++ s).data = ("Destination").data := by rw [h]
  have happ : (("Mile ") ++ s).data = ("Mile ").data ++ s.data := rfl
  rw [happ] at hdata
  have h1 : ("Mile ").data = ['M', 'i', 'l', 'e', ' '] := rfl
  have h2 : ("Destination").data
      = ['D', 'e', 's', 't', 'i', 'n', 'a', 't', 'i', 'o', 'n'] := rfl
  rw [h1, h2] at hdata
  have hhead := congrArg (fun l => l.head?) hdata
  simp at hhead

/-- The interior sampling loop never emits a waypoint named
"Destination". -/
theorem sample_loop_no_dest (interval : ℝ) (dep : ℤ) :
    ∀ (coords : List (ℝ × ℝ)) (prev : ℝ × ℝ) (total lastd : ℝ),
      some ("Destination") ∉
        ((sample_loop interval dep prev coords total lastd).1).map
          (fun wp => wp.name) := by
  intro coords
  induction coords with
  | nil => intro prev total lastd; simp [sample_loop]
  | cons c rest ih =>
    intro prev total lastd
    unfold sample_loop
    dsimp only
    split
    · simp only [List.map_cons, List.mem_cons]
      rintro (h | h)
      · exact mile_name_ne_destination _ (Option.some.inj h.symm)
      · exact ih c _ _ h
    · exact ih c _ _

/-- getLast of a list with one element appended, for an arbitrary
nonemptiness proof. -/
theorem getLast_append_one {α : Type _} (l : List α) (a : α) (h : l ++ [a] ≠ []) :
    (l ++ [a]).getLast h = a := List.getLast_append_singleton l

/-- C5 (amended): for a decoder yielding a non-empty coordinate list, the
waypoint list starts with "Start" at distance 0; its last element lies at
or within 10 miles of the final decoded coordinate; and a "Destination"
waypoint is present exactly when the interior loop emitted nothing (Start
is still alone — even if within 10 miles) OR the last emitted waypoint is
more than 10 miles from the final coordinate. -/
theorem waypoints_start_end (decode : String → List (ℝ × ℝ)) (enc : String)
    (interval : ℝ) (dep : ℤ) (c0 : ℝ × ℝ) (rest : List (ℝ × ℝ))
    (hdec : decode enc = c0 :: rest) :
    (∃ t, extract_waypoints_from_route decode enc interval dep
        = (⟨c0.1, c0.2, some ("Start"), some 0, some 0, some dep⟩ : Waypoint) :: t) ∧
    (∀ hne : extract_waypoints_from_route decode enc interval dep ≠ [],
      haversine_distance
          ((extract_waypoints_from_route decode enc interval dep).getLast hne).lat
          ((extract_waypoints_from_route decode enc interval dep).getLast hne).lon
          ((c0 :: rest).getLast (List.cons_ne_nil c0 rest)).1
          ((c0 :: rest).getLast (List.cons_ne_nil c0 rest)).2 ≤ 10) ∧
    (some ("Destination") ∈
        (extract_waypoints_from_route decode enc interval dep).map (fun wp => wp.name) ↔
      ((sample_loop interval dep c0 rest 0 0).1 = [] ∨
        haversine_distance
          (((⟨c0.1, c0.2, some ("Start"), some 0, some 0, some dep⟩ : Waypoint) ::
              (sample_loop interval dep c0 rest 0 0).1).getLast
            (List.cons_ne_nil _ _)).lat
          (((⟨c0.1, c0.2, some ("Start"), some 0, some 0, some dep⟩ : Waypoint) ::
              (sample_loop interval dep c0 rest 0 0).1).getLast
            (List.cons_ne_nil _ _)).lon
          ((c0 :: rest).getLast (List.cons_ne_nil c0 rest)).1
          ((c0 :: rest).getLast (List.cons_ne_nil c0 rest)).2 > 10)) := by
  have hnodest := sample_loop_no_dest interval dep rest c0 0 0
  unfold extract_waypoints_from_route
  rw [hdec]
  dsimp only
  by_cases hcond :
      ((⟨c0.1, c0.2, some ("Start"), some 0, some 0, some dep⟩ : Waypoint) ::
          (sample_loop interval dep c0 rest 0 0).1).length = 1 ∨
        haversine_distance
          (((⟨c0.1, c0.2, some ("Start"), some 0, some 0, some dep⟩ : Waypoint) ::
              (sample_loop interval dep c0 rest 0 0).1).getLast
            (List.cons_ne_nil _ _)).lat
          (((⟨c0.1, c0.2, some ("Start"), some 0, some 0, some dep⟩ : Waypoint) ::
              (sample_loop interval dep c0 rest 0 0).1).getLast
            (List.cons_ne_nil _ _)).lon
          ((c0 :: rest).getLast (List.cons_ne_nil c0 rest)).1
          ((c0 :: rest).getLast (List.cons_ne_nil c0 rest)).2 > 10
  · rw [if_pos hcond]
    refine ⟨⟨_, rfl⟩, ?_, ?_⟩
    · intro hne
      rw [getLast_append_one]
      dsimp only
      rw [haversine_distance_self]
      norm_num
    · constructor
      · intro _
        rcases hcond with h | h
        · exact Or.inl (by simpa using h)
        · exact Or.inr h
      · intro _
        simp
  · rw [if_neg hcond]
    push_neg at hcond
    refine ⟨⟨_, rfl⟩, ?_, ?_⟩
    · intro hne
      exact hcond.2
    · constructor
      · intro hmem
        simp only [List.map_cons, List.mem_cons] at hmem
        rcases hmem with h | h
        · exact absurd (Option.some.inj h.symm) (by decide)
        · exact absurd h hnodest
      · rintro (h | h)
        · exact absurd (by simp [h]) hcond.1
        · exact absurd h (not_lt_of_le hcond.2)

/-- Witness for C5's amended theorem: a single-coordinate decode, where
Start is alone and Destination is appended at the same point. -/
theorem waypoints_start_end_witness :
    ((fun _ : String => [((1 : ℝ), (2 : ℝ))]) ("x") = [((1 : ℝ), (2 : ℝ))]) ∧
    ((∃ t, extract_waypoints_from_route (fun _ => [((1 : ℝ), (2 : ℝ))]) ("x") 50 0
        = (⟨1, 2, some ("Start"), some 0, some 0, some 0⟩ : Waypoint) :: t) ∧
      (∀ hne : extract_waypoints_from_route (fun _ => [((1 : ℝ), (2 : ℝ))]) ("x") 50 0 ≠ [],
        haversine_distance
            ((extract_waypoints_from_route (fun _ => [((1 : ℝ), (2 : ℝ))]) ("x") 50 0).getLast hne).lat
            ((extract_waypoints_from_route (fun _ => [((1 : ℝ), (2 : ℝ))]) ("x") 50 0).getLast hne).lon
            (([((1 : ℝ), (2 : ℝ))]).getLast (List.cons_ne_nil _ _)).1
            (([((1 : ℝ), (2 : ℝ))]).getLast (List.cons_ne_nil _ _)).2 ≤ 10)) := by
  constructor
  · rfl
  · have h := waypoints_start_end (fun _ => [((1 : ℝ), (2 : ℝ))]) ("x") 50 0
      ((1 : ℝ), (2 : ℝ)) [] rfl
    exact ⟨h.1, h.2.1⟩

/-- C5 counterexample: a polyline decoding to the duplicated coordinate
(0,0),(0,0) samples nothing between Start and the end, which are 0 miles
apart — yet a Destination waypoint IS appended (the only-Start arm of the
condition), contradicting the claimed "exactly when more than 10 miles"
reading. -/
theorem waypoints_destination_counterexample :
    ((extract_waypoints_from_route (fun _ => [((0 : ℝ), (0 : ℝ)), ((0 : ℝ), (0 : ℝ))])
          ("e") 50 0).map (fun wp => wp.name))
      = [some ("Start"), some ("Destination")] ∧
    haversine_distance 0 0 0 0 ≤ 10 := by
  have hloop : sample_loop 50 0 ((0 : ℝ), (0 : ℝ)) [((0 : ℝ), (0 : ℝ))] 0 0
      = ([], 0 + haversine_distance 0 0 0 0) := by
    unfold sample_loop
    rw [haversine_distance_self]
    norm_num [sample_loop]
  constructor
  · unfold extract_waypoints_from_route
    dsimp only
    simp only [hloop]
    split
    · rfl
    · rename_i hfalse
      exact absurd (Or.inl rfl) hfalse
  · rw [haversine_distance_self]
    norm_num

/-- Filtering a list to the elements on which an optional function
succeeds does not change its filterMap. -/
theorem filterMap_filter_isSome {α β : Type _} (f : α → Option β) (l : List α) :
    (l.filter (fun a => (f a).isSome)).filterMap f = l.filterMap f := by
  induction l with
  | nil => rfl
  | cons a rest ih =>
    cases hf : f a <;> simp [List.filter_cons, List.filterMap_cons, hf, ih]

/-- The no-route message differs from both geocoding messages (they start
with different characters), for every origin/destination text. -/
theorem no_route_error_msg_ne_geocode_msgs (o d o2 d2 : String) :
    no_route_error_msg o d ≠ geocode_origin_error_msg o2 ∧
    no_route_error_msg o d ≠ geocode_dest_error_msg d2 := by
  have hdata : ∀ s t : String, (s ++ t).data = s.data ++ t.data := fun _ _ => rfl
  obtain ⟨l1, hl1⟩ : ∃ l, ("No drivable route found between ").data = 'N' :: l :=
    ⟨_, rfl⟩
  obtain ⟨l2, hl2⟩ : ∃ l, ("Could not geocode origin: ").data = 'C' :: l := ⟨_, rfl⟩
  obtain ⟨l3, hl3⟩ : ∃ l, ("Could not geocode destination: ").data = 'C' :: l :=
    ⟨_, rfl⟩
  constructor <;> intro h <;> have hd := congrArg String.data h
  · simp only [no_route_error_msg, geocode_origin_error_msg, hdata,
      List.append_assoc, hl1, hl2, List.cons_append] at hd
    injection hd with h1 _
    exact absurd h1 (by decide)
  · simp only [no_route_error_msg, geocode_dest_error_msg, hdata,
      List.append_assoc, hl1, hl3, List.cons_append] at hd
    injection hd with h1 _
    exact absurd h1 (by decide)

/-- C6: unresolvable intermediate stops are silently dropped (the pipeline
result is unchanged when they are removed, and a successful run records
exactly the resolved stop coordinates as passed to the router); a no-route
answer fails with 400 and a message distinct from both geocoding messages;
and a geometry sampling no waypoints fails with 500. -/
theorem orchestrator_error_handling
    (geocode : String → Option GeoCoords)
    (get_route : GeoCoords → GeoCoords → Option (List GeoCoords) → Option RouteData)
    (decode : String → List (ℝ × ℝ)) (req : RouteRequest) (dep : ℤ) :
    (get_route_weather_stages geocode get_route decode req dep
        = get_route_weather_stages geocode get_route decode
            { req with stops := req.stops.filter (fun s => (geocode s.location).isSome) }
            dep) ∧
    (∀ st : OrchState,
      get_route_weather_stages geocode get_route decode req dep = .ok st →
      st.stop_coords = req.stops.filterMap (fun s => geocode s.location)) ∧
    (∀ oc dc, geocode req.origin = some oc → geocode req.destination = some dc →
      get_route oc dc
          (if (req.stops.filterMap (fun s => geocode s.location)).isEmpty then none
           else some (req.stops.filterMap (fun s => geocode s.location))) = none →
      (get_route_weather_stages geocode get_route decode req dep
          = .error (400, no_route_error_msg req.origin req.destination) ∧
        no_route_error_msg req.origin req.destination
            ≠ geocode_origin_error_msg req.origin ∧
        no_route_error_msg req.origin req.destination
            ≠ geocode_dest_error_msg req.destination)) ∧
    (∀ oc dc rd, geocode req.origin = some oc → geocode req.destination = some dc →
      get_route oc dc
          (if (req.stops.filterMap (fun s => geocode s.location)).isEmpty then none
           else some (req.stops.filterMap (fun s => geocode s.location))) = some rd →
      extract_waypoints_from_route decode rd.geometry 50 dep = [] →
      get_route_weather_stages geocode get_route decode req dep
        = .error (500, ("Could not extract waypoints from route"))) := by
  refine ⟨?_, ?_, ?_, ?_⟩
  · unfold get_route_weather_stages
    dsimp only
    rw [filterMap_filter_isSome]
  · intro st h
    unfold get_route_weather_stages at h
    cases ho : geocode req.origin with
    | none => rw [ho] at h; simp at h
    | some oc =>
      rw [ho] at h
      cases hd : geocode req.destination with
      | none => rw [hd] at h; simp at h
      | some dc =>
        rw [hd] at h
        dsimp only at h
        cases hr : get_route oc dc
            (if (req.stops.filterMap (fun s => geocode s.location)).isEmpty then none
             else some (req.stops.filterMap (fun s => geocode s.location))) with
        | none => rw [hr] at h; simp at h
        | some rd =>
          rw [hr] at h
          dsimp only at h
          split at h
          · simp at h
          · injection h with h2
            rw [← h2]
  · intro oc dc ho hd hr
    refine ⟨?_,
      (no_route_error_msg_ne_geocode_msgs req.origin req.destination req.origin
        req.destination).1,
      (no_route_error_msg_ne_geocode_msgs req.origin req.destination req.origin
        req.destination).2⟩
    unfold get_route_weather_stages
    rw [ho]
    dsimp only
    rw [hd]
    dsimp only
    rw [hr]
  · intro oc dc rd ho hd hr hwp
    unfold get_route_weather_stages
    rw [ho]
    dsimp only
    rw [hd]
    dsimp only
    rw [hr]
    dsimp only
    rw [hwp]
    rfl

/-- Witness for C6: a concrete geocoder resolving "A" and "B" but not the
stop "C", a router answering no-route (for the 400 arm) or a fixed route
(for the 500 arm, with a decoder yielding no coordinates). -/
theorem orchestrator_error_handling_witness :
    (get_route_weather_stages
        (fun s => if s == "A" then some ⟨1, 2⟩ else if s == "B" then some ⟨3, 4⟩ else none)
        (fun _ _ _ => none) (fun _ => []) ⟨"A", "B", [⟨"C", "stop"⟩]⟩ 0
        = get_route_weather_stages
            (fun s => if s == "A" then some ⟨1, 2⟩ else if s == "B" then some ⟨3, 4⟩ else none)
            (fun _ _ _ => none) (fun _ => [])
            { (⟨"A", "B", [⟨"C", "stop"⟩]⟩ : RouteRequest) with
              stops := ([⟨"C", "stop"⟩] : List StopPoint).filter
                (fun s => ((fun s' => if s' == "A" then some (⟨1, 2⟩ : GeoCoords)
                    else if s' == "B" then some ⟨3, 4⟩ else none) s.location).isSome) }
            0) ∧
    (get_route_weather_stages
        (fun s => if s == "A" then some ⟨1, 2⟩ else if s == "B" then some ⟨3, 4⟩ else none)
        (fun _ _ _ => none) (fun _ => []) ⟨"A", "B", [⟨"C", "stop"⟩]⟩ 0
        = .error (400, no_route_error_msg ("A") ("B")) ∧
      no_route_error_msg ("A") ("B") ≠ geocode_origin_error_msg ("A") ∧
      no_route_error_msg ("A") ("B") ≠ geocode_dest_error_msg ("B")) ∧
    (get_route_weather_stages
        (fun s => if s == "A" then some ⟨1, 2⟩ else if s == "B" then some ⟨3, 4⟩ else none)
        (fun _ _ _ => some ⟨"geom", 10, 100⟩) (fun _ => []) ⟨"A", "B", [⟨"C", "stop"⟩]⟩ 0
        = .error (500, ("Could not extract waypoints from route"))) :=
  ⟨(orchestrator_error_handling _ _ _ _ _).1,
    (orchestrator_error_handling _ _ _ _ _).2.2.1 ⟨1, 2⟩ ⟨3, 4⟩ rfl rfl rfl,
    (orchestrator_error_handling _ _ _ _ _).2.2.2 ⟨1, 2⟩ ⟨3, 4⟩ ⟨"geom", 10, 100⟩
      rfl rfl rfl rfl⟩

end Routecast
